import Mathlib

set_option autoImplicit false

/-!
Verification development for the pyemu logging module (`pyemu/logger.py`) and
spatial-reference resolver (`pyemu/utils/spatial_reference.py`).

The Python code is shallowly embedded: classes become structures, methods become
functions, `raise` becomes `Except.error`, emitted log records and warnings are
returned explicitly as lists, and wall-clock timestamps are passed in as explicit
integer parameters.  Floating-point coordinate and spacing values are modelled
as exact rationals.
-/

namespace Pyemu

/-- Severity levels of the standard `logging` module. -/
inductive Level
  | debug
  | info
  | warning
  | error
  | critical
deriving DecidableEq

/-- Python values that appear as logging format arguments in this code base:
strings, integers and tuples. -/
inductive PyVal
  | str (s : String)
  | int (n : Int)
  | tup (elems : List PyVal)

mutual

/-- Python `repr` for the modelled values: strings are quoted, a one-element
tuple gets a trailing comma, longer tuples separate elements by a comma and a
space (string escaping inside `repr` is not modelled; no value in scope needs it). -/
def pyRepr : PyVal → String
  | .str s => "\x27" ++ s ++ "\x27"
  | .int n => toString n
  | .tup [] => "()"
  | .tup [x] => "(" ++ pyRepr x ++ ",)"
  | .tup (x :: y :: rest) => "(" ++ pyRepr x ++ pyReprRest (y :: rest) ++ ")"

/-- Renders `", " ++ repr e` for each remaining tuple element. -/
def pyReprRest : List PyVal → String
  | [] => ""
  | x :: rest => ", " ++ pyRepr x ++ pyReprRest rest

end

/-- Python `str`: the identity on strings, `repr` on everything else
(tuples render their elements with `repr`). -/
def pyToStr : PyVal → String
  | .str s => s
  | v => pyRepr v

/-- Python percent-formatting `msg % args`, restricted to the `%s` and `%%`
conversions (the only ones this code base uses).  Mirrors CPython:
a conversion with no argument left fails, and leftover arguments after the
format string is exhausted fail with
"not all arguments converted during string formatting". -/
def percentFormatAux : List Char → List PyVal → Except String String
  | [], [] => .ok ""
  | [], _ :: _ => .error "not all arguments converted during string formatting"
  | '%' :: 's' :: rest, [] =>
      have : rest.length < rest.length + 2 := by omega
      .error "not enough arguments for format string"
  | '%' :: 's' :: rest, a :: as =>
      (percentFormatAux rest as).map (fun t => pyToStr a ++ t)
  | '%' :: '%' :: rest, as =>
      (percentFormatAux rest as).map (fun t => "%" ++ t)
  | c :: rest, as =>
      (percentFormatAux rest as).map (fun t => String.singleton c ++ t)

/-- Python `msg % args`: a tuple right operand supplies the argument list, any
other value acts as a one-element argument list (the `Mapping` special case of
`%` never arises in this code base and is not modelled). -/
def pyPercent (msg : String) (args : PyVal) : Except String String :=
  match args with
  | .tup l => percentFormatAux msg.data l
  | v => percentFormatAux msg.data [v]

/-- A `logging.LogRecord` as far as this code base observes it: the logger
name, the severity, the unformatted message and the positional format
arguments (`LogRecord.__init__`'s one-element-`Mapping` special case never
arises here: the wrapper always passes a tuple argument). -/
structure LogRecord where
  name : String
  level : Level
  msg : String
  args : List PyVal

/-- `LogRecord.getMessage`: returns `msg` unchanged when `args` is falsy
(empty), otherwise the percent-formatted `msg % args`. -/
def LogRecord.getMessage (r : LogRecord) : Except String String :=
  if r.args.isEmpty then .ok r.msg else pyPercent r.msg (.tup r.args)

/-- An underlying named `logging.Logger`. -/
structure PyLogger where
  name : String
deriving DecidableEq

/-- `logging.Logger.info/warning/...(msg, *args)`: builds the record carrying
the positional arguments it was given. -/
def PyLogger.log (lg : PyLogger) (lvl : Level) (msg : String) (args : List PyVal) : LogRecord :=
  ⟨lg.name, lvl, msg, args⟩

/-- The kinds of exception this code base raises or returns. -/
inductive ExcKind
  | valueError
  | typeError
  | indexError
  | exception
deriving DecidableEq

/-- A Python exception value: its class and its message. -/
structure PyErr where
  kind : ExcKind
  msg : String
deriving DecidableEq

/-- `pyemu.logger.SuperLogger`: a dataclass wrapping a named logger. -/
structure SuperLogger where
  logger : PyLogger
deriving DecidableEq

/-- `SuperLogger.getChild(suffix)`: wraps `logging.Logger.getChild`, whose
result is the logger named by the dotted concatenation. -/
def SuperLogger.getChild (l : SuperLogger) (suffix : String) : SuperLogger :=
  ⟨⟨l.logger.name ++ "." ++ suffix⟩⟩

/-- `SuperLogger.debug(message, *args)`: the source forwards
`self.logger.debug(message, args, **kwargs)` — the whole `args` tuple is
passed as a single positional argument to the underlying logger. -/
def SuperLogger.debug (l : SuperLogger) (message : String) (args : List PyVal) : LogRecord :=
  l.logger.log .debug message [.tup args]

/-- `SuperLogger.info(message, *args)`: forwards `self.logger.info(message, args)`. -/
def SuperLogger.info (l : SuperLogger) (message : String) (args : List PyVal) : LogRecord :=
  l.logger.log .info message [.tup args]

/-- `SuperLogger.warning(message, *args)`: forwards `self.logger.warning(message, args)`. -/
def SuperLogger.warning (l : SuperLogger) (message : String) (args : List PyVal) : LogRecord :=
  l.logger.log .warning message [.tup args]

/-- `SuperLogger.error(message, *args)`: forwards `self.logger.error(message, args)`. -/
def SuperLogger.error (l : SuperLogger) (message : String) (args : List PyVal) : LogRecord :=
  l.logger.log .error message [.tup args]

/-- `SuperLogger.critical(message, *args)`: forwards `self.logger.critical(message, args)`. -/
def SuperLogger.critical (l : SuperLogger) (message : String) (args : List PyVal) : LogRecord :=
  l.logger.log .critical message [.tup args]

/-- `SuperLogger.logged_exception(message, exc_type)`: logs the message at
error severity and returns — does not raise — the constructed exception.
The first component is the list of log records the call emits. -/
def SuperLogger.logged_exception (l : SuperLogger) (message : String) (kind : ExcKind) :
    List LogRecord × PyErr :=
  ([l.error message []], ⟨kind, message⟩)

/-! ## Spatial reference resolver (`pyemu/utils/spatial_reference.py`) -/

/-- Warning categories raised by this code base (`pyemu.pyemu_warnings` classes
plus the stdlib ones in use). -/
inductive WarnCat
  | ambiguousIndex
  | pyemuWarning
  | deprecation
  | userWarning
deriving DecidableEq

/-- Python `str` of a tuple of ints, e.g. `(5, 7)`, `(1,)`, `()`. -/
def strIntTuple (l : List Int) : String :=
  pyRepr (.tup (l.map .int))

/-- Python sequence indexing `xs[i]` with negative-index support; `none` where
CPython would raise `IndexError`. -/
def pyIndex {α : Type} (xs : List α) (i : Int) : Option α :=
  if i < 0 then
    if i + xs.length < 0 then none else xs[(i + xs.length).toNat]?
  else xs[i.toNat]?

/-- The warning text `SpatialReference._parse_kij_args` emits when it guesses
that the final two entries are (i, j). -/
def parseAmbigMsg : String :=
  "Position of i and j in index_cols not specified, " ++
    "assume (i,j) are final two entries in index_cols."

/-- The warning text `SpatialReference._parse_kij_args` emits when fewer than
two positional arguments are supplied. -/
def parseInsufficientMsg (args : List Int) : String :=
  "get_xy() warning: need locational information " ++
    ("(e.g. i,j) to generate xy, " ++
      ("insufficient index cols passed to interpret: " ++ strIntTuple args))

/-- `SpatialReference._parse_kij_args(args, kwargs)`.  The `ij_id` keyword is
modelled as an optional pair of positions (`kwargs` without the key, or with it
set to `None`, are both `none`).  The result carries the parsed pair and the
warnings emitted; a position in `ij_id` that is out of range for `args` is the
`IndexError` CPython raises there. -/
def parse_kij_args (args : List Int) (ij_id : Option (Int × Int)) :
    Except PyErr ((Option Int × Option Int) × List (WarnCat × String)) :=
  if 2 ≤ args.length then
    match ij_id with
    | some (p, q) =>
      match pyIndex args p, pyIndex args q with
      | some i, some j => .ok ((some i, some j), [])
      | _, _ => .error ⟨.indexError, "tuple index out of range"⟩
    | none =>
      match pyIndex args (-2), pyIndex args (-1) with
      | some i, some j => .ok ((some i, some j), [(.ambiguousIndex, parseAmbigMsg)])
      | _, _ => .error ⟨.indexError, "tuple index out of range"⟩
  else
    .ok ((none, none), [(.ambiguousIndex, parseInsufficientMsg args)])

/-- numpy `.mean()` over a 1-D array, as an exact rational. -/
def npMean (xs : List ℚ) : ℚ := xs.sum / (xs.length : ℚ)

/-- numpy `.min()` over a 1-D array (numpy rejects the empty array; the
`[]` case is a junk value the theorems never rely on). -/
def npMin : List ℚ → ℚ
  | [] => 0
  | x :: rest => rest.foldl min x

/-- The default `tolerance=1e-4` of `is_regular_grid`. -/
def defaultTolerance : ℚ := 1 / 10000

/-- An object satisfying the `FlopySR` protocol: spacing arrays `delr`/`delc`
and 2-D cell-center coordinate arrays in "center-grid" naming, the latter
modelled as total index functions. -/
structure FlopySRData where
  delr : List ℚ
  delc : List ℚ
  xcentergrid : Int → Int → ℚ
  ycentergrid : Int → Int → ℚ

/-- An object satisfying the `FlopyMG` protocol: spacing arrays and 2-D
cell-center coordinate arrays in "cell-center" naming. -/
structure FlopyMGData where
  delr : List ℚ
  delc : List ℚ
  xcellcenters : Int → Int → ℚ
  ycellcenters : Int → Int → ℚ

/-- A key of the `SRDict` mapping: an integer cell id or an index tuple. -/
inductive SRKey
  | intKey (i : Int)
  | tupKey (t : List Int)
deriving DecidableEq

/-- The `SRDict` mapping from cell ids / index tuples to coordinate tuples. -/
abbrev SRDict := List (SRKey × List ℚ)

/-- Python `dict.get(key, None)` over the modelled mapping (keys in a Python
dict are unique; lookup finds the entry whose key equals `k`). -/
def srGet (d : SRDict) (k : SRKey) : Option (List ℚ) :=
  match d with
  | [] => none
  | (k2, v) :: rest => if k2 = k then some v else srGet rest k

/-- The base (null-variant) `SpatialReference`: wraps no usable reference,
only the child logger. -/
structure SpatialReference where
  logger : SuperLogger

/-- `SpatialReference.__init__`: the child logger is named after the class. -/
def SpatialReference.make (parent_logger : SuperLogger) : SpatialReference :=
  ⟨parent_logger.getChild "SpatialReference"⟩

/-- `SpatialReference.is_regular_grid`: the base class always reports `false`. -/
def SpatialReference.is_regular_grid (_ : SpatialReference) (_ : ℚ) : Bool :=
  false

/-- `DictSpatialReference`: a dictionary-keyed resolver. -/
structure DictSpatialReference where
  spatial_reference : SRDict
  logger : SuperLogger

/-- `DictSpatialReference.__init__`. -/
def DictSpatialReference.make (d : SRDict) (parent_logger : SuperLogger) :
    DictSpatialReference :=
  ⟨d, parent_logger.getChild "DictSpatialReference"⟩

/-- `DictSpatialReference` does not override `is_regular_grid`; it inherits the
base class's constant `false`. -/
def DictSpatialReference.is_regular_grid (_ : DictSpatialReference) (_ : ℚ) : Bool :=
  false

/-- The argument shapes `DictSpatialReference.get_xy` can receive: a tuple, a
list (converted to a tuple on entry), or a bare integer (which has no `len`). -/
inductive PyArgs
  | tup (l : List Int)
  | lst (l : List Int)
  | intArg (i : Int)
deriving DecidableEq

/-- Python `str` of a `get_xy` argument, as interpolated into error messages. -/
def PyArgs.str : PyArgs → String
  | .tup l => strIntTuple l
  | .lst l => "[" ++ pyReprRest (l.map PyVal.int) ++ "]"
  | .intArg i => toString i

/-- The `base_error_msg` f-string of `DictSpatialReference.get_xy` with its
`{err}` placeholder filled in:
`f"error getting xy from arg:'{args}' - {err}"`. -/
def base_error_msg (args : PyArgs) (err : String) : String :=
  "error getting xy from arg:\x27" ++ (PyArgs.str args ++ ("\x27 - " ++ err))

/-- `return xy[0], xy[1]`: truncates the stored coordinate tuple to its first
two components; a stored tuple with fewer than two components is the
`IndexError` CPython raises there. -/
def returnPair (xy : List ℚ) : Except PyErr (Option ℚ × Option ℚ) :=
  match xy with
  | x :: y :: _ => .ok (some x, some y)
  | _ => .error ⟨.indexError, "tuple index out of range"⟩

/-- `raise self.logger.logged_exception(msg, ValueError)`: the emitted log
records alongside the raised error. -/
def DictSpatialReference.raiseValue (self : DictSpatialReference) (msg : String) :
    List LogRecord × Except PyErr (Option ℚ × Option ℚ) :=
  let le := self.logger.logged_exception msg .valueError
  (le.1, .error le.2)

/-- The tail of `DictSpatialReference.get_xy` after a fallback lookup: the
`if xy is None: raise ...("still None...")` check followed by
`return xy[0], xy[1]`. -/
def DictSpatialReference.finishLookup (self : DictSpatialReference)
    (xy : Option (List ℚ)) (args : PyArgs) :
    List LogRecord × Except PyErr (Option ℚ × Option ℚ) :=
  match xy with
  | some v => ([], returnPair v)
  | none => self.raiseValue (base_error_msg args "still None...")

/-- `DictSpatialReference.get_xy(args)`: a list argument is first converted to
a tuple; the argument is looked up directly as a key; on a miss a
single-element tuple falls back to its sole element, a two-element tuple with
a zero entry falls back to the other entry, a bare integer fails `len()` and
raises a logged `ValueError`, and anything else raises a logged `ValueError`
("no value found"); a fallback miss raises a logged `ValueError`
("still None..."). -/
def DictSpatialReference.get_xy (self : DictSpatialReference) (args0 : PyArgs) :
    List LogRecord × Except PyErr (Option ℚ × Option ℚ) :=
  let args := match args0 with
    | .lst l => PyArgs.tup l
    | a => a
  let xy0 : Option (List ℚ) := match args with
    | .tup l => srGet self.spatial_reference (.tupKey l)
    | .lst l => srGet self.spatial_reference (.tupKey l)
    | .intArg i => srGet self.spatial_reference (.intKey i)
  match xy0 with
  | some v => ([], returnPair v)
  | none =>
    match args with
    | .intArg _ => self.raiseValue (base_error_msg args "no len support")
    | .lst l => self.raiseValue (base_error_msg (.tup l) "no value found")
    | .tup l =>
      match l with
      | [a] => self.finishLookup (srGet self.spatial_reference (.intKey a)) args
      | [a, b] =>
        if a = 0 then self.finishLookup (srGet self.spatial_reference (.intKey b)) args
        else if b = 0 then self.finishLookup (srGet self.spatial_reference (.intKey a)) args
        else self.raiseValue (base_error_msg args "no value found")
      | _ => self.raiseValue (base_error_msg args "no value found")

/-- `FlopySRSpatialReference`: resolver over a `FlopySR`-shaped grid object. -/
structure FlopySRSpatialReference where
  spatial_reference : FlopySRData
  logger : SuperLogger

/-- `FlopySRSpatialReference.__init__`. -/
def FlopySRSpatialReference.make (g : FlopySRData) (parent_logger : SuperLogger) :
    FlopySRSpatialReference :=
  ⟨g, parent_logger.getChild "FlopySRSpatialReference"⟩

/-- `FlopySRSpatialReference.get_xy(args, **kwargs)`: parses via
`_parse_kij_args`; a null parse returns the null pair, otherwise the
center-grid arrays are indexed at `[i, j]`.  (`_parse_kij_args` only ever
yields both components or neither; the mixed case is unreachable.) -/
def FlopySRSpatialReference.get_xy (self : FlopySRSpatialReference)
    (args : List Int) (ij_id : Option (Int × Int)) :
    Except PyErr ((Option ℚ × Option ℚ) × List (WarnCat × String)) :=
  match parse_kij_args args ij_id with
  | .error e => .error e
  | .ok ((none, _), ws) => .ok ((none, none), ws)
  | .ok ((some i, some j), ws) =>
      .ok ((some (self.spatial_reference.xcentergrid i j),
            some (self.spatial_reference.ycentergrid i j)), ws)
  | .ok ((some _, none), _) => .error ⟨.typeError, "unreachable mixed index pair"⟩

/-- `FlopySRSpatialReference.is_regular_grid(tolerance)`: mirrors the source
line for line — the first test wraps the whole quotient in `np.abs`, the other
two take `np.abs` of the numerator only. -/
def FlopySRSpatialReference.is_regular_grid (self : FlopySRSpatialReference)
    (tolerance : ℚ) : Bool :=
  let delx := self.spatial_reference.delc
  let dely := self.spatial_reference.delr
  if |(npMean delx - npMin delx) / npMean delx| > tolerance then false
  else if |npMean dely - npMin dely| / npMean dely > tolerance then false
  else if |npMean delx - npMean dely| / npMean delx > tolerance then false
  else true

/-- `FlopyMGSpatialReference`: resolver over a `FlopyMG`-shaped grid object. -/
structure FlopyMGSpatialReference where
  spatial_reference : FlopyMGData
  logger : SuperLogger

/-- `FlopyMGSpatialReference.__init__`. -/
def FlopyMGSpatialReference.make (g : FlopyMGData) (parent_logger : SuperLogger) :
    FlopyMGSpatialReference :=
  ⟨g, parent_logger.getChild "FlopyMGSpatialReference"⟩

/-- `FlopyMGSpatialReference.get_xy(args, **kwargs)`: as the SR variant but
indexing the cell-center arrays. -/
def FlopyMGSpatialReference.get_xy (self : FlopyMGSpatialReference)
    (args : List Int) (ij_id : Option (Int × Int)) :
    Except PyErr ((Option ℚ × Option ℚ) × List (WarnCat × String)) :=
  match parse_kij_args args ij_id with
  | .error e => .error e
  | .ok ((none, _), ws) => .ok ((none, none), ws)
  | .ok ((some i, some j), ws) =>
      .ok ((some (self.spatial_reference.xcellcenters i j),
            some (self.spatial_reference.ycellcenters i j)), ws)
  | .ok ((some _, none), _) => .error ⟨.typeError, "unreachable mixed index pair"⟩

/-- `FlopyMGSpatialReference.is_regular_grid(tolerance)`: identical to the SR
variant's body. -/
def FlopyMGSpatialReference.is_regular_grid (self : FlopyMGSpatialReference)
    (tolerance : ℚ) : Bool :=
  let delx := self.spatial_reference.delc
  let dely := self.spatial_reference.delr
  if |(npMean delx - npMin delx) / npMean delx| > tolerance then false
  else if |npMean dely - npMin dely| / npMean dely > tolerance then false
  else if |npMean delx - npMean dely| / npMean delx > tolerance then false
  else true

/-- The union of resolver variants, as returned by the factory. -/
inductive SpatialRef
  | base (r : SpatialReference)
  | dict (r : DictSpatialReference)
  | flopySR (r : FlopySRSpatialReference)
  | flopyMG (r : FlopyMGSpatialReference)

/-- The candidate shapes the factory inspects.  The source's
`isinstance` checks against the runtime-checkable protocols are structural;
they are modelled nominally, one constructor per shape the claims quantify
over, probed in the source's branch order. -/
inductive SRCandidate
  | noneVal
  | srObj (g : FlopySRData)
  | mgObj (g : FlopyMGData)
  | mapping (d : SRDict)
  | resolver (r : SpatialRef)
  | intVal (n : Int)

/-- `initialize_spatial_reference(spatial_reference, parent_logger)`: dispatch
on the candidate's shape; a mapping is preceded by an informational log entry;
an existing resolver is returned unchanged; an unsupported value raises a
logged `TypeError`.  The first component is the list of log records emitted. -/
def initialize_spatial_reference (spatial_reference : SRCandidate)
    (parent_logger : SuperLogger) : List LogRecord × Except PyErr SpatialRef :=
  match spatial_reference with
  | .noneVal => ([], .ok (.base (SpatialReference.make parent_logger)))
  | .srObj g => ([], .ok (.flopySR (FlopySRSpatialReference.make g parent_logger)))
  | .mgObj g => ([], .ok (.flopyMG (FlopyMGSpatialReference.make g parent_logger)))
  | .mapping d =>
      ([parent_logger.info "dictionary-based spatial reference detected..." []],
       .ok (.dict (DictSpatialReference.make d parent_logger)))
  | .resolver r => ([], .ok r)
  | .intVal _ =>
      let le := parent_logger.logged_exception
        "initialize_spatial_reference() error: unsupported spatial_reference" .typeError
      (le.1, .error le.2)

/-! ## Timed logging (`TimerLog` and the legacy file-based `Logger`) -/

/-- Python `str(t2 - t1)` of a `timedelta`; durations are modelled as integer
tick differences, their rendering as `toString`. -/
def durStr (d : Int) : String := toString d

/-- Python `str(datetime.now())`; timestamps are modelled as integer ticks. -/
def timeStr (t : Int) : String := toString t

/-- `pyemu.logger.TimerLog`: the state its constructor sets up.  The
`log_func` callable is left abstract: the operations return the list of
message strings passed to it.  `_error` holds the class name of a propagating
exception and the `str` of its value. -/
structure TimerLog where
  message : String
  finished : Bool
  error : Option (String × String)
  tic : Int

/-- `TimerLog.__init__(log_func, message)`: records the start tick and logs
`"starting {message}"`. -/
def TimerLog.make (message : String) (now : Int) : TimerLog × List String :=
  (⟨message, false, none, now⟩, ["starting " ++ message])

/-- The double-completion warning text,
`"{cls}({message}) already finished"`. -/
def TimerLog.alreadyFinishedMsg (t : TimerLog) : String :=
  "TimerLog(" ++ t.message ++ ") already finished"

/-- `TimerLog.finish()`: warns when already finished, marks the timer
finished, and logs
`f"finished {self.message}{err_msg} took: {toc - self.tic}"` where `err_msg`
is `" with error <Kind>(<value>)"` when an exception was recorded.  Returns
the new state, the messages logged, and the warnings emitted. -/
def TimerLog.finish (t : TimerLog) (now : Int) :
    TimerLog × List String × List String :=
  let warns := if t.finished then [t.alreadyFinishedMsg] else []
  let err_msg := match t.error with
    | some (k, v) => " with error " ++ k ++ "(" ++ v ++ ")"
    | none => ""
  ({ t with finished := true },
   ["finished " ++ t.message ++ err_msg ++ " took: " ++ durStr (now - t.tic)],
   warns)

/-- `TimerLog.__exit__(exc_type, exc_value, traceback)`: records the
propagating exception (if any) and delegates to `finish`. -/
def TimerLog.scopedExit (t : TimerLog) (exc : Option (String × String)) (now : Int) :
    TimerLog × List String × List String :=
  TimerLog.finish { t with error := exc } now

/-- A whole `with`-scope over a `TimerLog`: construction at tick `t0`, scoped
exit at tick `t1` with optional propagating exception; yields all messages
logged and all warnings emitted. -/
def timerScopedRun (message : String) (t0 t1 : Int) (exc : Option (String × String)) :
    List String × List String :=
  let s := TimerLog.make message t0
  let f := s.1.scopedExit exc t1
  (s.2 ++ f.2.1, f.2.2)

/-- The legacy file-based `pyemu.logger.Logger`: the in-flight phrase map and
the two output switches (`echo`, and whether a log file is attached). -/
structure Logger where
  items : List (String × Int)
  echo : Bool
  hasFile : Bool

/-- Python `phrase in self.items.keys()` / `self.items[phrase]` over the
modelled phrase map. -/
def lookupPhrase (items : List (String × Int)) (p : String) : Option Int :=
  match items with
  | [] => none
  | (q, t) :: rest => if q = p then some t else lookupPhrase rest p

/-- Python `self.items.pop(phrase)`: drops the entry for `p`. -/
def popPhrase (items : List (String × Int)) (p : String) : List (String × Int) :=
  match items with
  | [] => []
  | (q, t) :: rest => if q = p then rest else (q, t) :: popPhrase rest p

/-- The output a legacy-`Logger` method produces for a constructed line `s`:
printed when `echo` is set, written when a file is attached. -/
def Logger.emit (self : Logger) (s : String) : List String :=
  (if self.echo then [s] else []) ++ (if self.hasFile then [s] else [])

/-- `Logger.log(phrase)`: a phrase already in flight gets a
`"finished: ... took: ..."` line and is forgotten; a new phrase gets a
`"starting: ..."` line and its start tick recorded. -/
def Logger.log (self : Logger) (phrase : String) (now : Int) :
    Logger × List String :=
  match lookupPhrase self.items phrase with
  | some t0 =>
      let s := timeStr now ++ " finished: " ++ phrase ++ " took: " ++
        durStr (now - t0) ++ "\n"
      ({ self with items := popPhrase self.items phrase }, self.emit s)
  | none =>
      let s := timeStr now ++ " starting: " ++ phrase ++ "\n"
      ({ self with items := self.items ++ [(phrase, now)] }, self.emit s)

/-- `sub` occurs as a contiguous substring of `s`. -/
def StrContains (s sub : String) : Prop :=
  ∃ p q : String, s = p ++ (sub ++ q)

/-! ## Helper lemmas -/

theorem base_error_msg_contains (args : PyArgs) (err : String) :
    StrContains (base_error_msg args err) (PyArgs.str args) :=
  ⟨"error getting xy from arg:\x27", "\x27 - " ++ err, rfl⟩

theorem get_xy_lst (self : DictSpatialReference) (l : List Int) :
    self.get_xy (.lst l) = self.get_xy (.tup l) := rfl

theorem get_xy_tup_hit (self : DictSpatialReference) (l : List Int) (v : List ℚ)
    (h : srGet self.spatial_reference (.tupKey l) = some v) :
    self.get_xy (.tup l) = ([], returnPair v) := by
  unfold DictSpatialReference.get_xy
  simp [h]

theorem get_xy_int_hit (self : DictSpatialReference) (i : Int) (v : List ℚ)
    (h : srGet self.spatial_reference (.intKey i) = some v) :
    self.get_xy (.intArg i) = ([], returnPair v) := by
  unfold DictSpatialReference.get_xy
  simp [h]

theorem get_xy_int_miss (self : DictSpatialReference) (i : Int)
    (h : srGet self.spatial_reference (.intKey i) = none) :
    self.get_xy (.intArg i) =
      self.raiseValue (base_error_msg (.intArg i) "no len support") := by
  unfold DictSpatialReference.get_xy
  simp [h]

theorem get_xy_single_miss (self : DictSpatialReference) (a : Int)
    (h : srGet self.spatial_reference (.tupKey [a]) = none) :
    self.get_xy (.tup [a]) =
      self.finishLookup (srGet self.spatial_reference (.intKey a)) (.tup [a]) := by
  unfold DictSpatialReference.get_xy
  simp [h]

theorem get_xy_pair_miss (self : DictSpatialReference) (a b : Int)
    (h : srGet self.spatial_reference (.tupKey [a, b]) = none) :
    self.get_xy (.tup [a, b]) =
      (if a = 0 then
        self.finishLookup (srGet self.spatial_reference (.intKey b)) (.tup [a, b])
      else if b = 0 then
        self.finishLookup (srGet self.spatial_reference (.intKey a)) (.tup [a, b])
      else self.raiseValue (base_error_msg (.tup [a, b]) "no value found")) := by
  unfold DictSpatialReference.get_xy
  simp [h]

theorem get_xy_nofallback_miss (self : DictSpatialReference) (l : List Int)
    (h : srGet self.spatial_reference (.tupKey l) = none)
    (h1 : l.length ≠ 1) (h2 : l.length ≠ 2) :
    self.get_xy (.tup l) =
      self.raiseValue (base_error_msg (.tup l) "no value found") := by
  unfold DictSpatialReference.get_xy
  match l with
  | [] => simp [h]
  | [a] => exact absurd rfl h1
  | [a, b] => exact absurd rfl h2
  | a :: b :: c :: rest => simp [h]

/-- Every run of `DictSpatialReference.get_xy` either returns the first two
components of some looked-up value, or raises through
`raise self.logger.logged_exception(msg, ValueError)`. -/
theorem dict_get_xy_shape (self : DictSpatialReference) (args : PyArgs) :
    (∃ v : List ℚ, self.get_xy args = ([], returnPair v)) ∨
    (∃ msg : String, self.get_xy args = self.raiseValue msg) := by
  have hfin : ∀ (xy : Option (List ℚ)) (a : PyArgs),
      (∃ v, self.finishLookup xy a = ([], returnPair v)) ∨
      (∃ msg, self.finishLookup xy a = self.raiseValue msg) := by
    intro xy a
    cases xy with
    | some v => exact .inl ⟨v, rfl⟩
    | none => exact .inr ⟨_, rfl⟩
  cases args with
  | lst l =>
    rw [get_xy_lst]
    cases hd : srGet self.spatial_reference (.tupKey l) with
    | some v => exact .inl ⟨v, get_xy_tup_hit self l v hd⟩
    | none =>
      match l with
      | [] => exact .inr ⟨_, get_xy_nofallback_miss self [] hd (by simp) (by simp)⟩
      | [a] => rw [get_xy_single_miss self a hd]; exact hfin _ _
      | [a, b] =>
        rw [get_xy_pair_miss self a b hd]
        by_cases ha : a = 0
        · simp only [ha, if_true]; exact hfin _ _
        · by_cases hb : b = 0
          · simp only [ha, hb, if_false, if_true]; exact hfin _ _
          · simp only [ha, hb, if_false]; exact .inr ⟨_, rfl⟩
      | a :: b :: c :: rest =>
        exact .inr ⟨_, get_xy_nofallback_miss self _ hd (by simp) (by simp)⟩
  | tup l =>
    cases hd : srGet self.spatial_reference (.tupKey l) with
    | some v => exact .inl ⟨v, get_xy_tup_hit self l v hd⟩
    | none =>
      match l with
      | [] => exact .inr ⟨_, get_xy_nofallback_miss self [] hd (by simp) (by simp)⟩
      | [a] => rw [get_xy_single_miss self a hd]; exact hfin _ _
      | [a, b] =>
        rw [get_xy_pair_miss self a b hd]
        by_cases ha : a = 0
        · simp only [ha, if_true]; exact hfin _ _
        · by_cases hb : b = 0
          · simp only [ha, hb, if_false, if_true]; exact hfin _ _
          · simp only [ha, hb, if_false]; exact .inr ⟨_, rfl⟩
      | a :: b :: c :: rest =>
        exact .inr ⟨_, get_xy_nofallback_miss self _ hd (by simp) (by simp)⟩
  | intArg i =>
    cases hd : srGet self.spatial_reference (.intKey i) with
    | some v => exact .inl ⟨v, get_xy_int_hit self i v hd⟩
    | none => exact .inr ⟨_, get_xy_int_miss self i hd⟩

theorem pyIndex_neg_two (pre : List Int) (x y : Int) :
    pyIndex (pre ++ [x, y]) (-2) = some x := by
  unfold pyIndex
  rw [if_pos (by decide : (-2 : Int) < 0)]
  have h1 : (-2 : Int) + ((pre ++ [x, y]).length : Int) = ((pre.length : Nat) : Int) := by
    simp [List.length_append]
  rw [h1, if_neg (by omega), Int.toNat_natCast]
  rw [List.getElem?_append_right (Nat.le_refl _)]
  simp

theorem pyIndex_neg_one (pre : List Int) (x y : Int) :
    pyIndex (pre ++ [x, y]) (-1) = some y := by
  unfold pyIndex
  rw [if_pos (by decide : (-1 : Int) < 0)]
  have h1 : (-1 : Int) + ((pre ++ [x, y]).length : Int) = ((pre.length + 1 : Nat) : Int) := by
    have hlen : (pre ++ [x, y]).length = pre.length + 2 := by simp
    rw [hlen]; push_cast; ring
  rw [h1, if_neg (by omega), Int.toNat_natCast]
  rw [List.getElem?_append_right (by omega)]
  have h2 : pre.length + 1 - pre.length = 1 := by omega
  rw [h2]
  simp

theorem lookupPhrase_append_self (items : List (String × Int)) (p : String) (t : Int)
    (h : lookupPhrase items p = none) :
    lookupPhrase (items ++ [(p, t)]) p = some t := by
  induction items with
  | nil => simp [lookupPhrase]
  | cons a rest ih =>
    obtain ⟨q, s⟩ := a
    by_cases hq : q = p
    · simp [lookupPhrase, hq] at h
    · simp only [lookupPhrase, hq, if_false, List.cons_append] at h ⊢
      exact ih h

theorem popPhrase_append_self (items : List (String × Int)) (p : String) (t : Int)
    (h : lookupPhrase items p = none) :
    popPhrase (items ++ [(p, t)]) p = items := by
  induction items with
  | nil => simp [popPhrase]
  | cons a rest ih =>
    obtain ⟨q, s⟩ := a
    by_cases hq : q = p
    · simp [lookupPhrase, hq] at h
    · simp only [lookupPhrase, hq, if_false, List.cons_append, popPhrase] at h ⊢
      exact congrArg (List.cons (q, s)) (ih h)

theorem lookupPhrase_pop_of_nodup (items : List (String × Int)) (p : String)
    (hnd : (items.map Prod.fst).Nodup) :
    lookupPhrase (popPhrase items p) p = none := by
  induction items with
  | nil => simp [popPhrase, lookupPhrase]
  | cons a rest ih =>
    obtain ⟨q, s⟩ := a
    simp only [List.map_cons, List.nodup_cons] at hnd
    by_cases hq : q = p
    · subst hq
      simp only [popPhrase, if_true]
      -- q does not occur among the remaining keys
      have : ∀ items2 : List (String × Int), q ∉ items2.map Prod.fst →
          lookupPhrase items2 q = none := by
        intro items2
        induction items2 with
        | nil => intro _; rfl
        | cons b rest2 ih2 =>
          obtain ⟨r, u⟩ := b
          intro hmem
          simp only [List.map_cons, List.mem_cons, not_or] at hmem
          have hr : r ≠ q := fun hh => hmem.1 hh.symm
          simp only [lookupPhrase, hr, if_false]
          exact ih2 hmem.2
      exact this rest hnd.1
    · simp only [popPhrase, hq, if_false, lookupPhrase]
      exact ih hnd.2

/-- Two consecutive `log` calls with a phrase not in flight restore the
logger's state exactly. -/
theorem log_log_restore (s : Logger) (p : String) (t1 t2 : Int)
    (h : lookupPhrase s.items p = none) :
    ((s.log p t1).1.log p t2).1 = s := by
  have h1 : (s.log p t1).1 = { s with items := s.items ++ [(p, t1)] } := by
    simp only [Logger.log, h]
  rw [h1]
  have h2 : lookupPhrase (s.items ++ [(p, t1)]) p = some t1 :=
    lookupPhrase_append_self s.items p t1 h
  simp only [Logger.log, h2]
  rw [popPhrase_append_self s.items p t1 h]

/-- A `returnPair` failure is always the `IndexError` of `xy[0], xy[1]`. -/
theorem returnPair_error (v : List ℚ) (e : PyErr) (h : returnPair v = .error e) :
    e = ⟨.indexError, "tuple index out of range"⟩ := by
  match v with
  | [] => injection h with h2; exact h2.symm
  | [x] => injection h with h2; exact h2.symm
  | x :: y :: rest => simp [returnPair] at h

/-- A `returnPair` success yields two present components. -/
theorem returnPair_ok (v : List ℚ) (a b : Option ℚ) (h : returnPair v = .ok (a, b)) :
    (∃ x, a = some x) ∧ ∃ y, b = some y := by
  match v with
  | [] => simp [returnPair] at h
  | [x] => simp [returnPair] at h
  | x :: y :: rest =>
    injection h with h2
    have h3 := Prod.mk.inj h2
    exact ⟨⟨x, h3.1.symm⟩, ⟨y, h3.2.symm⟩⟩

/-! ## Claim theorems -/

/-- C1: a dictionary-keyed resolver's `get_xy(args)` first looks `args` up
directly as a key; on a miss a one-element tuple falls back to its sole
element and a two-element tuple with a zero entry falls back to the other
entry; when no fallback applies, or the tried fallback also misses, a
`ValueError`-kind error is raised whose message includes the offending
argument — in particular a length-1 argument with neither the tuple nor its
sole element present raises a `ValueError`-kind error. -/
theorem C1_dict_get_xy_lookup_and_fallbacks :
    (∀ (self : DictSpatialReference) (l : List Int) (v : List ℚ),
        srGet self.spatial_reference (.tupKey l) = some v →
        self.get_xy (.tup l) = ([], returnPair v)) ∧
    (∀ (self : DictSpatialReference) (a : Int) (v : List ℚ),
        srGet self.spatial_reference (.tupKey [a]) = none →
        srGet self.spatial_reference (.intKey a) = some v →
        self.get_xy (.tup [a]) = ([], returnPair v)) ∧
    (∀ (self : DictSpatialReference) (a b : Int) (v : List ℚ),
        srGet self.spatial_reference (.tupKey [a, b]) = none →
        (a = 0 ∨ b = 0) →
        srGet self.spatial_reference (.intKey (if a = 0 then b else a)) = some v →
        self.get_xy (.tup [a, b]) = ([], returnPair v)) ∧
    (∀ (self : DictSpatialReference) (l : List Int),
        srGet self.spatial_reference (.tupKey l) = none →
        l.length ≠ 1 → l.length ≠ 2 →
        (self.get_xy (.tup l)).2 =
          .error ⟨.valueError, base_error_msg (.tup l) "no value found"⟩ ∧
        StrContains (base_error_msg (.tup l) "no value found") (PyArgs.str (.tup l))) ∧
    (∀ (self : DictSpatialReference) (a b : Int),
        srGet self.spatial_reference (.tupKey [a, b]) = none →
        a ≠ 0 → b ≠ 0 →
        (self.get_xy (.tup [a, b])).2 =
          .error ⟨.valueError, base_error_msg (.tup [a, b]) "no value found"⟩ ∧
        StrContains (base_error_msg (.tup [a, b]) "no value found")
          (PyArgs.str (.tup [a, b]))) ∧
    (∀ (self : DictSpatialReference) (a : Int),
        srGet self.spatial_reference (.tupKey [a]) = none →
        srGet self.spatial_reference (.intKey a) = none →
        (self.get_xy (.tup [a])).2 =
          .error ⟨.valueError, base_error_msg (.tup [a]) "still None..."⟩ ∧
        StrContains (base_error_msg (.tup [a]) "still None...") (PyArgs.str (.tup [a]))) ∧
    (∀ (self : DictSpatialReference) (a b : Int),
        srGet self.spatial_reference (.tupKey [a, b]) = none →
        (a = 0 ∨ b = 0) →
        srGet self.spatial_reference (.intKey (if a = 0 then b else a)) = none →
        (self.get_xy (.tup [a, b])).2 =
          .error ⟨.valueError, base_error_msg (.tup [a, b]) "still None..."⟩) := by
  refine ⟨?_, ?_, ?_, ?_, ?_, ?_, ?_⟩
  · intro self l v h
    exact get_xy_tup_hit self l v h
  · intro self a v h1 h2
    rw [get_xy_single_miss self a h1]
    simp only [DictSpatialReference.finishLookup, h2]
  · intro self a b v h1 hz h2
    rw [get_xy_pair_miss self a b h1]
    by_cases ha : a = 0
    · rw [if_pos ha]
      rw [if_pos ha] at h2
      simp only [DictSpatialReference.finishLookup, h2]
    · have hb : b = 0 := hz.resolve_left ha
      rw [if_neg ha, if_pos hb]
      rw [if_neg ha] at h2
      simp only [DictSpatialReference.finishLookup, h2]
  · intro self l h h1 h2
    rw [get_xy_nofallback_miss self l h h1 h2]
    exact ⟨rfl, base_error_msg_contains _ _⟩
  · intro self a b h ha hb
    rw [get_xy_pair_miss self a b h, if_neg ha, if_neg hb]
    exact ⟨rfl, base_error_msg_contains _ _⟩
  · intro self a h1 h2
    rw [get_xy_single_miss self a h1]
    simp only [DictSpatialReference.finishLookup, h2]
    exact ⟨rfl, base_error_msg_contains _ _⟩
  · intro self a b h1 hz h2
    rw [get_xy_pair_miss self a b h1]
    by_cases ha : a = 0
    · rw [if_pos ha]
      rw [if_pos ha] at h2
      simp only [DictSpatialReference.finishLookup, h2]
      rfl
    · have hb : b = 0 := hz.resolve_left ha
      rw [if_neg ha, if_pos hb]
      rw [if_neg ha] at h2
      simp only [DictSpatialReference.finishLookup, h2]
      rfl

/-- Witness for C1: with the mapping sending cell id 3 to (10, 20), the
one-element tuple (3,) misses as a key and falls back to its sole element. -/
theorem C1_dict_get_xy_lookup_and_fallbacks_witness :
    (DictSpatialReference.make [(SRKey.intKey 3, [10, 20])] ⟨⟨"p"⟩⟩).get_xy (.tup [3]) =
      ([], .ok (some 10, some 20)) := by
  have h := C1_dict_get_xy_lookup_and_fallbacks.2.1
    (DictSpatialReference.make [(SRKey.intKey 3, [10, 20])] ⟨⟨"p"⟩⟩) 3 [10, 20] rfl rfl
  simpa [returnPair] using h

/-- C2: generic index parsing takes the last two entries as (row, column) with
exactly one ambiguous-index warning when `ij_id` is absent and at least two
positional arguments are given; an `ij_id` keyword selects the named positions
with no warning; fewer than two positional arguments yield `(None, None)` with
one ambiguous-index warning — in particular `(5, 7)` parses to row 5, column 7
with one warning and `()` parses to the null pair with one warning. -/
theorem C2_parse_kij_args_spec :
    (∀ (pre : List Int) (x y : Int),
        parse_kij_args (pre ++ [x, y]) none =
          .ok ((some x, some y), [(.ambiguousIndex, parseAmbigMsg)])) ∧
    (∀ (args : List Int) (p q i j : Int),
        2 ≤ args.length →
        pyIndex args p = some i → pyIndex args q = some j →
        parse_kij_args args (some (p, q)) = .ok ((some i, some j), [])) ∧
    (∀ (args : List Int) (ij_id : Option (Int × Int)),
        args.length < 2 →
        parse_kij_args args ij_id =
          .ok ((none, none), [(.ambiguousIndex, parseInsufficientMsg args)])) ∧
    parse_kij_args [5, 7] none =
      .ok ((some 5, some 7), [(.ambiguousIndex, parseAmbigMsg)]) ∧
    parse_kij_args [] none =
      .ok ((none, none), [(.ambiguousIndex, parseInsufficientMsg [])]) := by
  refine ⟨?_, ?_, ?_, ?_, ?_⟩
  · intro pre x y
    have hlen : 2 ≤ (pre ++ [x, y]).length := by simp
    simp only [parse_kij_args, if_pos hlen, pyIndex_neg_two, pyIndex_neg_one]
  · intro args p q i j hlen h1 h2
    simp only [parse_kij_args, if_pos hlen, h1, h2]
  · intro args ij_id hlen
    simp only [parse_kij_args, if_neg (by omega : ¬2 ≤ args.length)]
  · rfl
  · rfl

/-- Witness for C2: the `ij_id` keyword (0, 2) selects the first and third
entries of a three-element argument tuple with no warning. -/
theorem C2_parse_kij_args_spec_witness :
    parse_kij_args [1, 2, 3] (some (0, 2)) = .ok ((some 1, some 3), []) :=
  C2_parse_kij_args_spec.2.1 [1, 2, 3] 0 2 1 3 (by decide) rfl rfl

/-- C3: the factory maps `None` to the null variant, a center-grid-shaped
object to the grid-object-A variant, a cell-center-shaped object to the
grid-object-B variant, a mapping to the dictionary variant after one
informational log entry, an existing resolver to itself unchanged, and an
integer to a `TypeError`-kind error. -/
theorem C3_initialize_spatial_reference_spec :
    (∀ pl : SuperLogger,
        initialize_spatial_reference .noneVal pl =
          ([], .ok (.base (SpatialReference.make pl)))) ∧
    (∀ (g : FlopySRData) (pl : SuperLogger),
        initialize_spatial_reference (.srObj g) pl =
          ([], .ok (.flopySR (FlopySRSpatialReference.make g pl)))) ∧
    (∀ (g : FlopyMGData) (pl : SuperLogger),
        initialize_spatial_reference (.mgObj g) pl =
          ([], .ok (.flopyMG (FlopyMGSpatialReference.make g pl)))) ∧
    (∀ (d : SRDict) (pl : SuperLogger),
        initialize_spatial_reference (.mapping d) pl =
          ([pl.info "dictionary-based spatial reference detected..." []],
           .ok (.dict (DictSpatialReference.make d pl)))) ∧
    (∀ (r : SpatialRef) (pl : SuperLogger),
        initialize_spatial_reference (.resolver r) pl = ([], .ok r)) ∧
    (∀ (n : Int) (pl : SuperLogger),
        initialize_spatial_reference (.intVal n) pl =
          ([pl.error "initialize_spatial_reference() error: unsupported spatial_reference" []],
           .error ⟨.typeError,
             "initialize_spatial_reference() error: unsupported spatial_reference"⟩)) :=
  ⟨fun _ => rfl, fun _ _ => rfl, fun _ _ => rfl, fun _ _ => rfl, fun _ _ => rfl,
   fun _ _ => rfl⟩

/-- C4: both grid-object variants parse `args` through the generic index
parser; a null parse returns `(None, None)` without error, and a parsed pair
returns the center-coordinate arrays indexed at `[row, column]`. -/
theorem C4_grid_get_xy_spec :
    (∀ (self : FlopySRSpatialReference) (args : List Int) (ij_id : Option (Int × Int))
        (ws : List (WarnCat × String)),
        parse_kij_args args ij_id = .ok ((none, none), ws) →
        self.get_xy args ij_id = .ok ((none, none), ws)) ∧
    (∀ (self : FlopySRSpatialReference) (args : List Int) (ij_id : Option (Int × Int))
        (i j : Int) (ws : List (WarnCat × String)),
        parse_kij_args args ij_id = .ok ((some i, some j), ws) →
        self.get_xy args ij_id =
          .ok ((some (self.spatial_reference.xcentergrid i j),
                some (self.spatial_reference.ycentergrid i j)), ws)) ∧
    (∀ (self : FlopyMGSpatialReference) (args : List Int) (ij_id : Option (Int × Int))
        (ws : List (WarnCat × String)),
        parse_kij_args args ij_id = .ok ((none, none), ws) →
        self.get_xy args ij_id = .ok ((none, none), ws)) ∧
    (∀ (self : FlopyMGSpatialReference) (args : List Int) (ij_id : Option (Int × Int))
        (i j : Int) (ws : List (WarnCat × String)),
        parse_kij_args args ij_id = .ok ((some i, some j), ws) →
        self.get_xy args ij_id =
          .ok ((some (self.spatial_reference.xcellcenters i j),
                some (self.spatial_reference.ycellcenters i j)), ws)) := by
  refine ⟨?_, ?_, ?_, ?_⟩
  · intro self args ij_id ws h
    unfold FlopySRSpatialReference.get_xy
    rw [h]
  · intro self args ij_id i j ws h
    unfold FlopySRSpatialReference.get_xy
    rw [h]
  · intro self args ij_id ws h
    unfold FlopyMGSpatialReference.get_xy
    rw [h]
  · intro self args ij_id i j ws h
    unfold FlopyMGSpatialReference.get_xy
    rw [h]

/-- Witness for C4: a grid resolver given no positional indices returns the
null pair alongside the ambiguous-index warning, raising nothing. -/
theorem C4_grid_get_xy_spec_witness :
    (FlopySRSpatialReference.make ⟨[], [], fun _ _ => 0, fun _ _ => 0⟩ ⟨⟨"p"⟩⟩).get_xy [] none =
      .ok ((none, none), [(.ambiguousIndex, parseInsufficientMsg [])]) :=
  C4_grid_get_xy_spec.1 _ [] none _ rfl

/-- C5: the claim says `info("have %s", "problem")` emits "have problem" —
but every severity wrapper passes its whole `args` tuple as a single
positional argument to the underlying logger, so the handler renders
`"have %s" % (("problem",),)`, i.e. "have ('problem',)", and a call with no
extra arguments makes `msg % ((),)` fail with "not all arguments converted";
the docstrings' stated semantics, `message % args`, would give
"have problem".  Evaluations of the embedded code at those inputs: -/
theorem C5_severity_format_bug :
    (∀ (l : SuperLogger) (message : String) (args : List PyVal),
        l.info message args = l.logger.log .info message [.tup args]) ∧
    (SuperLogger.info ⟨⟨"pyemu"⟩⟩ "have %s" [.str "problem"]).getMessage =
      .ok "have (\x27problem\x27,)" ∧
    (SuperLogger.info ⟨⟨"pyemu"⟩⟩ "hello" []).getMessage =
      .error "not all arguments converted during string formatting" ∧
    pyPercent "have %s" (.tup [.str "problem"]) = .ok "have problem" :=
  ⟨fun _ _ _ => rfl, rfl, rfl, rfl⟩

/-- C6: on the grid-object variants `is_regular_grid(tolerance)` holds
exactly when the spacing arrays' mean-vs-minimum deviations relative to their
means and the relative gap between the two means all stay within the
tolerance; a uniform grid passes, a spacing varying beyond the tolerance
fails, and the null and dictionary variants always report `false`. -/
theorem C6_is_regular_grid_spec :
    (∀ (self : FlopySRSpatialReference) (tol : ℚ),
        self.is_regular_grid tol = true ↔
          (|(npMean self.spatial_reference.delc - npMin self.spatial_reference.delc) /
              npMean self.spatial_reference.delc| ≤ tol ∧
           |npMean self.spatial_reference.delr - npMin self.spatial_reference.delr| /
              npMean self.spatial_reference.delr ≤ tol ∧
           |npMean self.spatial_reference.delc - npMean self.spatial_reference.delr| /
              npMean self.spatial_reference.delc ≤ tol)) ∧
    (∀ (self : FlopyMGSpatialReference) (tol : ℚ),
        self.is_regular_grid tol = true ↔
          (|(npMean self.spatial_reference.delc - npMin self.spatial_reference.delc) /
              npMean self.spatial_reference.delc| ≤ tol ∧
           |npMean self.spatial_reference.delr - npMin self.spatial_reference.delr| /
              npMean self.spatial_reference.delr ≤ tol ∧
           |npMean self.spatial_reference.delc - npMean self.spatial_reference.delr| /
              npMean self.spatial_reference.delc ≤ tol)) ∧
    (FlopySRSpatialReference.make
        ⟨[100, 100, 100], [100, 100], fun _ _ => 0, fun _ _ => 0⟩
        ⟨⟨"p"⟩⟩).is_regular_grid defaultTolerance = true ∧
    (FlopySRSpatialReference.make
        ⟨[100, 100], [100, 200], fun _ _ => 0, fun _ _ => 0⟩
        ⟨⟨"p"⟩⟩).is_regular_grid defaultTolerance = false ∧
    (∀ (self : SpatialReference) (tol : ℚ), self.is_regular_grid tol = false) ∧
    (∀ (self : DictSpatialReference) (tol : ℚ), self.is_regular_grid tol = false) := by
  have hiff : ∀ (delc delr : List ℚ) (tol : ℚ),
      ((if |(npMean delc - npMin delc) / npMean delc| > tol then false
        else if |npMean delr - npMin delr| / npMean delr > tol then false
        else if |npMean delc - npMean delr| / npMean delc > tol then false
        else true) = true) ↔
        (|(npMean delc - npMin delc) / npMean delc| ≤ tol ∧
         |npMean delr - npMin delr| / npMean delr ≤ tol ∧
         |npMean delc - npMean delr| / npMean delc ≤ tol) := by
    intro delc delr tol
    split_ifs with h1 h2 h3
    · constructor
      · intro h; exact absurd h (by simp)
      · rintro ⟨hA, _, _⟩; exact absurd h1 (not_lt.mpr hA)
    · constructor
      · intro h; exact absurd h (by simp)
      · rintro ⟨_, hB, _⟩; exact absurd h2 (not_lt.mpr hB)
    · constructor
      · intro h; exact absurd h (by simp)
      · rintro ⟨_, _, hC⟩; exact absurd h3 (not_lt.mpr hC)
    · exact ⟨fun _ => ⟨not_lt.mp h1, not_lt.mp h2, not_lt.mp h3⟩, fun _ => rfl⟩
  refine ⟨?_, ?_, ?_, ?_, fun _ _ => rfl, fun _ _ => rfl⟩
  · intro self tol
    exact hiff self.spatial_reference.delc self.spatial_reference.delr tol
  · intro self tol
    exact hiff self.spatial_reference.delc self.spatial_reference.delr tol
  · unfold FlopySRSpatialReference.is_regular_grid FlopySRSpatialReference.make
      SuperLogger.getChild
    norm_num [npMean, npMin, defaultTolerance, min_def, List.sum_cons, List.sum_nil,
      List.foldl, List.length_cons, List.length_nil]
  · unfold FlopySRSpatialReference.is_regular_grid FlopySRSpatialReference.make
      SuperLogger.getChild
    norm_num [npMean, npMin, defaultTolerance, min_def, List.sum_cons, List.sum_nil,
      List.foldl, List.length_cons, List.length_nil]

/-- C7: a timer logs "starting {message}" exactly once at creation; a normal
scoped exit logs exactly one finished line with the elapsed duration; a
scoped exit through a propagating failure carries " with error Kind(value)"
before "took:"; a second completion warns about double completion but still
logs, measuring from the original start tick. -/
theorem C7_timer_log_spec :
    (∀ (m : String) (t0 : Int), (TimerLog.make m t0).2 = ["starting " ++ m]) ∧
    (∀ (m : String) (t0 t1 : Int),
        timerScopedRun m t0 t1 none =
          (["starting " ++ m, "finished " ++ m ++ " took: " ++ durStr (t1 - t0)], [])) ∧
    (∀ (m k v : String) (t0 t1 : Int),
        timerScopedRun m t0 t1 (some (k, v)) =
          (["starting " ++ m,
            "finished " ++ m ++ (" with error " ++ k ++ "(" ++ v ++ ")") ++ " took: " ++
              durStr (t1 - t0)], [])) ∧
    (∀ (m : String) (t0 t1 t2 : Int),
        (((TimerLog.make m t0).1.finish t1).1.finish t2).2.2 =
          ["TimerLog(" ++ m ++ ") already finished"] ∧
        (((TimerLog.make m t0).1.finish t1).1.finish t2).2.1 =
          ["finished " ++ m ++ " took: " ++ durStr (t2 - t0)]) := by
  refine ⟨fun _ _ => rfl, ?_, ?_, ?_⟩
  · intro m t0 t1
    simp [timerScopedRun, TimerLog.make, TimerLog.scopedExit, TimerLog.finish,
      String.append_empty]
  · intro m k v t0 t1
    simp [timerScopedRun, TimerLog.make, TimerLog.scopedExit, TimerLog.finish]
  · intro m t0 t1 t2
    refine ⟨rfl, ?_⟩
    simp [TimerLog.make, TimerLog.finish, String.append_empty]

/-- C8: the legacy logger's `log(phrase)` on a fresh phrase records the
current tick and emits a "starting: {phrase}" line; on an in-flight phrase it
emits a line with the elapsed time since the recorded start and forgets the
phrase; two consecutive calls restore the in-flight map with respect to the
phrase (exactly, when the phrase started absent), and a third call starts
timing afresh. -/
theorem C8_legacy_log_spec :
    (∀ (s : Logger) (p : String) (now : Int),
        lookupPhrase s.items p = none →
        s.log p now =
          ({ s with items := s.items ++ [(p, now)] },
           s.emit (timeStr now ++ " starting: " ++ p ++ "\n")) ∧
        lookupPhrase ((s.log p now).1.items) p = some now) ∧
    (∀ (s : Logger) (p : String) (t0 now : Int),
        lookupPhrase s.items p = some t0 →
        s.log p now =
          ({ s with items := popPhrase s.items p },
           s.emit (timeStr now ++ " finished: " ++ p ++ " took: " ++
             durStr (now - t0) ++ "\n"))) ∧
    (∀ (s : Logger) (p : String) (t0 now : Int),
        (s.items.map Prod.fst).Nodup →
        lookupPhrase s.items p = some t0 →
        lookupPhrase ((s.log p now).1.items) p = none) ∧
    (∀ (s : Logger) (p : String) (t1 t2 : Int),
        lookupPhrase s.items p = none →
        ((s.log p t1).1.log p t2).1 = s) ∧
    (∀ (s : Logger) (p : String) (t1 t2 t3 : Int),
        lookupPhrase s.items p = none →
        (((s.log p t1).1.log p t2).1.log p t3).2 =
          s.emit (timeStr t3 ++ " starting: " ++ p ++ "\n")) := by
  refine ⟨?_, ?_, ?_, ?_, ?_⟩
  · intro s p now h
    constructor
    · simp only [Logger.log, h]
    · simp only [Logger.log, h]
      exact lookupPhrase_append_self s.items p now h
  · intro s p t0 now h
    simp only [Logger.log, h]
  · intro s p t0 now hnd h
    simp only [Logger.log, h]
    exact lookupPhrase_pop_of_nodup s.items p hnd
  · intro s p t1 t2 h
    exact log_log_restore s p t1 t2 h
  · intro s p t1 t2 t3 h
    rw [log_log_restore s p t1 t2 h]
    simp only [Logger.log, h]

/-- Witness for C8: on an empty in-flight map, logging the same phrase twice
returns the logger to its initial state exactly. -/
theorem C8_legacy_log_spec_witness :
    ((Logger.log ⟨[], true, false⟩ "test" 1).1.log "test" 2).1 =
      (⟨[], true, false⟩ : Logger) :=
  C8_legacy_log_spec.2.2.2.1 ⟨[], true, false⟩ "test" 1 2 rfl

/-- C9: `logged_exception` logs exactly one record, at error severity and
carrying exactly the given message, and returns (does not raise) the
constructed exception; every `ValueError` surfaced by the dictionary
resolver's `get_xy` and every `TypeError` surfaced by the factory is raised
at the call site carrying a message that was first logged at error severity. -/
theorem C9_logged_then_raised_spec :
    (∀ (l : SuperLogger) (message : String) (kind : ExcKind),
        l.logged_exception message kind =
          ([l.logger.log .error message [.tup []]], ⟨kind, message⟩)) ∧
    (∀ (self : DictSpatialReference) (args : PyArgs) (e : PyErr),
        (self.get_xy args).2 = .error e → e.kind = .valueError →
        (self.get_xy args).1 = [self.logger.logger.log .error e.msg [.tup []]]) ∧
    (∀ (cand : SRCandidate) (pl : SuperLogger) (e : PyErr),
        (initialize_spatial_reference cand pl).2 = .error e →
        e.kind = .typeError ∧
        (initialize_spatial_reference cand pl).1 =
          [pl.logger.log .error e.msg [.tup []]]) := by
  refine ⟨fun _ _ _ => rfl, ?_, ?_⟩
  · intro self args e he hk
    rcases dict_get_xy_shape self args with ⟨v, hv⟩ | ⟨msg, hm⟩
    · rw [hv] at he
      have h2 := returnPair_error v e he
      rw [h2] at hk
      exact absurd hk (by simp)
    · rw [hm] at he ⊢
      have h2 : e = ⟨.valueError, msg⟩ := by
        have : (self.raiseValue msg).2 = .error (⟨.valueError, msg⟩ : PyErr) := rfl
        rw [this] at he
        injection he with h3
        exact h3.symm
      rw [h2]
      rfl
  · intro cand pl e he
    cases cand with
    | noneVal => exact absurd he (by simp [initialize_spatial_reference])
    | srObj g => exact absurd he (by simp [initialize_spatial_reference])
    | mgObj g => exact absurd he (by simp [initialize_spatial_reference])
    | mapping d => exact absurd he (by simp [initialize_spatial_reference])
    | resolver r => exact absurd he (by simp [initialize_spatial_reference])
    | intVal n =>
      have h2 : e = ⟨.typeError,
          "initialize_spatial_reference() error: unsupported spatial_reference"⟩ := by
        have : (initialize_spatial_reference (.intVal n) pl).2 =
            .error (⟨.typeError,
              "initialize_spatial_reference() error: unsupported spatial_reference"⟩ :
                PyErr) := rfl
        rw [this] at he
        injection he with h3
        exact h3.symm
      rw [h2]
      exact ⟨rfl, rfl⟩

/-- Witness for C9: the dictionary resolver built over the empty mapping
raises on `()` a `ValueError` whose exact message was logged at error
severity through the child logger. -/
theorem C9_logged_then_raised_spec_witness :
    ((DictSpatialReference.make [] ⟨⟨"p"⟩⟩).get_xy (.tup [])).1 =
      [PyLogger.log ⟨"p.DictSpatialReference"⟩ .error
        (base_error_msg (.tup []) "no value found") [.tup []]] :=
  C9_logged_then_raised_spec.2.1 (DictSpatialReference.make [] ⟨⟨"p"⟩⟩) (.tup [])
    ⟨.valueError, base_error_msg (.tup []) "no value found"⟩ rfl rfl

/-- C10 counterexample: the claim's dichotomy — every input either raises a
`ValueError`-kind error or returns the first two stored components — fails at
the mapping sending cell id 1 to the one-component tuple (5,): the fallback
for argument (1,) finds that tuple, and `xy[1]` raises an `IndexError`-kind
error, which is not a `ValueError` kind. -/
theorem C10_dict_get_xy_counterexample :
    ((DictSpatialReference.make [(SRKey.intKey 1, [5])] ⟨⟨"p"⟩⟩).get_xy (.tup [1])).2 =
      .error ⟨.indexError, "tuple index out of range"⟩ ∧
    ExcKind.indexError ≠ ExcKind.valueError :=
  ⟨rfl, by decide⟩

/-- C10 (amended): the dictionary resolver's `get_xy` never returns the null
pair — every success carries two present components, namely the first two
components of the matched stored tuple (longer tuples are silently
truncated) — every failure is of `ValueError` kind or (for a matched stored
tuple with fewer than two components) of `IndexError` kind, and a list
argument behaves as the corresponding tuple. -/
theorem C10_dict_get_xy_amended :
    (∀ (self : DictSpatialReference) (args : PyArgs) (a b : Option ℚ),
        (self.get_xy args).2 = .ok (a, b) →
        (∃ x, a = some x) ∧ ∃ y, b = some y) ∧
    (∀ (self : DictSpatialReference) (args : PyArgs) (e : PyErr),
        (self.get_xy args).2 = .error e →
        e.kind = .valueError ∨ e.kind = .indexError) ∧
    (∀ (self : DictSpatialReference) (l : List Int) (x y : ℚ) (rest : List ℚ),
        srGet self.spatial_reference (.tupKey l) = some (x :: y :: rest) →
        (self.get_xy (.tup l)).2 = .ok (some x, some y)) ∧
    (∀ (self : DictSpatialReference) (l : List Int),
        self.get_xy (.lst l) = self.get_xy (.tup l)) := by
  refine ⟨?_, ?_, ?_, ?_⟩
  · intro self args a b h
    rcases dict_get_xy_shape self args with ⟨v, hv⟩ | ⟨msg, hm⟩
    · rw [hv] at h
      exact returnPair_ok v a b h
    · rw [hm] at h
      have : (self.raiseValue msg).2 = .error (⟨.valueError, msg⟩ : PyErr) := rfl
      rw [this] at h
      exact absurd h (by simp)
  · intro self args e h
    rcases dict_get_xy_shape self args with ⟨v, hv⟩ | ⟨msg, hm⟩
    · rw [hv] at h
      rw [returnPair_error v e h]
      exact .inr rfl
    · rw [hm] at h
      have h2 : (self.raiseValue msg).2 = .error (⟨.valueError, msg⟩ : PyErr) := rfl
      rw [h2] at h
      injection h with h3
      rw [← h3]
      exact .inl rfl
  · intro self l x y rest h
    rw [get_xy_tup_hit self l (x :: y :: rest) h]
    rfl
  · intro self l
    exact get_xy_lst self l

/-- Witness for C10 (amended): a stored three-component tuple is truncated to
its first two components. -/
theorem C10_dict_get_xy_amended_witness :
    ((DictSpatialReference.make [(SRKey.tupKey [1, 2], [10, 20, 30])] ⟨⟨"p"⟩⟩).get_xy
        (.tup [1, 2])).2 = .ok (some 10, some 20) :=
  C10_dict_get_xy_amended.2.2.1 _ [1, 2] 10 20 [30] rfl

end Pyemu
